import Mathlib

/-!
Verification of the account-request orchestration core of the swift proxy:
the gatekeeper header filter (swift/common/middleware/gatekeeper.py) and the
account controller (swift/proxy/controllers/account.py).

The embedding is shallow: each Python handler becomes a Lean function from a
controller state, an environment of external collaborators (ring, cache,
backend transport, header generator), and a request, to a pair of
(trace of externally visible events, response).  The trace records, in program
order, every call the handler makes to an external collaborator, so that
ordering claims ("cache invalidation happens before dispatch", "no replica is
contacted") become statements about the trace list.
-/

namespace SwiftProxy

/-! Section: the gatekeeper header filter
(swift/common/middleware/gatekeeper.py). -/

/-- Modelled from the spec: `get_sys_meta_prefix` lives in
`swift.common.request_helpers`, which is not under `src/`.  The spec describes
one reserved system-metadata header-namespace prefix per resource class
(account, container, object); we model the prefix as the lower-case string
`x-<class>-sysmeta-`. -/
def get_sys_meta_prefix (server_type : String) : String :=
  "x-" ++ server_type ++ "-sysmeta-"

/-- gatekeeper.py lines 46-48: the list of patterns matched against inbound
request headers; matching headers are removed from the request. -/
def inbound_exclusions : List String :=
  [ get_sys_meta_prefix "account",
    get_sys_meta_prefix "container",
    get_sys_meta_prefix "object"]

/-- gatekeeper.py line 56: the outbound exclusion list is the inbound list. -/
def outbound_exclusions : List String :=
  inbound_exclusions

/-- Per-character ASCII lowercasing: the case folding `re.IGNORECASE` applies
to these all-ASCII patterns. -/
def lowercase (s : String) : String :=
  String.mk (s.data.map Char.toLower)

/-- The test `strPrefix p s` holds when the string `p` occurs in full at the
start of `s` (computed structurally on the character lists). -/
def strPrefix (p s : String) : Bool :=
  p.data.isPrefixOf s.data

/-- gatekeeper.py lines 59-62: `'|'.join(exclusions)` compiled with
`re.IGNORECASE` and applied with `.match`.  For an alternation of literal
patterns (each exclusion string contains only regex-literal characters),
`re.match` succeeds exactly when some alternative is a case-insensitive
prefix of the subject string, which is what this embedding computes. -/
def make_exclusion_test (exclusions : List String) (s : String) : Bool :=
  exclusions.any (fun p => strPrefix (lowercase p) (lowercase s))

/-- Modelled from the spec: `remove_items` lives in
`swift.common.request_helpers`, which is not under `src/`.  Per the spec's
`filterInbound`/`filterOutbound` contract it removes from the header mapping
every item whose name satisfies the condition and returns both the filtered
mapping and the removed items; it is total (never raises).  Headers are
modelled as association lists of (name, value). -/
def remove_items (headers : List (String × String)) (condition : String → Bool) :
    List (String × String) × List (String × String) :=
  (headers.filter (fun kv => ! condition kv.1),
   headers.filter (fun kv => condition kv.1))

/-- gatekeeper.py line 74: the inbound half of `GatekeeperMiddleware.__call__`,
filtering the request headers with the inbound condition. -/
def gatekeeper_inbound (reqHeaders : List (String × String)) :
    List (String × String) × List (String × String) :=
  remove_items reqHeaders (make_exclusion_test inbound_exclusions)

/-- gatekeeper.py line 78: the outbound half of `GatekeeperMiddleware.__call__`,
filtering the response headers with the outbound condition. -/
def gatekeeper_outbound (respHeaders : List (String × String)) :
    List (String × String) × List (String × String) :=
  remove_items respHeaders (make_exclusion_test outbound_exclusions)

/-! Section: the account controller (swift/proxy/controllers/account.py). -/

/-- An HTTP-style response: status code, header mapping, body. -/
structure Resp where
  status_int : Nat
  headers : List (String × String)
  body : String
deriving DecidableEq

/-- One externally visible action of a handler, in program order:
ring resolution (`account_ring.get_nodes`), internal header generation
(`generate_request_headers`), cache invalidation (`memcache.delete`), the
read-path replica fan-out (`GETorHEAD_base`), the write-path replica fan-out
(`make_requests`), and the implicit account create (`autocreate_account`). -/
inductive Ev where
  | getNodes (name : String)
  | genHeaders (transfer : Bool)
  | cacheDelete (key : String)
  | getOrHeadBase (partition : Nat) (path : String)
  | dispatch (method : String) (partition : Nat) (path : String)
      (headerLists : List (List (String × String)))
  | autocreateAccount (name : String)
deriving DecidableEq

/-- The proxy application configuration flags read by the controller. -/
structure App where
  allow_account_management : Bool
  account_autocreate : Bool
  memcache : Bool
deriving DecidableEq

/-- External collaborators of the controller, plus configuration constants:
`MAX_ACCOUNT_NAME_LENGTH` (swift.common.constraints), the account ring
(`get_nodes` returns a partition and the candidate node list),
`generate_request_headers` (abstracted as a pure function of the transfer
flag), `get_account_memcache_key` (abstracted as a key-derivation function),
the replica backend (the response to the n-th replica fan-out this handler
performs), and `normalize_timestamp(time.time())` (the `now` string). -/
structure Env where
  max_account_name_length : Nat
  get_nodes : String → Nat × List Nat
  gen_headers : Bool → List (String × String)
  cache_key : String → String
  backend : Nat → Resp
  now : String

/-- A client request as read by the controller: `path_info`, `query_string`
(empty string models a falsy query string), and the outcome of
`check_metadata(req, 'account')` (a collaborator in swift.common.constraints,
abstracted as the error response it returns, if any). -/
structure Req where
  path_info : String
  query_string : String
  check_metadata_account : Option Resp

/-- The controller state after `__init__`: the app, the percent-decoded
account name, and the allowed-method list. -/
structure AccountController where
  app : App
  account_name : String
  allowed_methods : List String
deriving DecidableEq

/-- account.py lines 42-47: `__init__` stores the unquoted account name
(`account_name` here is already the percent-decoded name) and, when account
management is not allowed, removes PUT and DELETE from the allowed methods
inherited from the base Controller (`base_allowed`, populated outside src/). -/
def AccountController.init (app : App) (account_name : String)
    (base_allowed : List String) : AccountController :=
  { app := app
    account_name := account_name
    allowed_methods :=
      if app.allow_account_management then base_allowed
      else (base_allowed.erase "PUT").erase "DELETE" }

/-- account.py lines 52-55 (and 84-87, 103-106): the HTTPBadRequest built when
the account name exceeds MAX_ACCOUNT_NAME_LENGTH. -/
def nameTooLongResp (n m : Nat) : Resp :=
  { status_int := 400
    headers := []
    body := "Account name length of " ++ toString n ++ " longer than " ++
      toString m }

/-- account.py line 133: a bare HTTPBadRequest. -/
def badRequestResp : Resp :=
  { status_int := 400, headers := [], body := "" }

/-- account.py lines 77-79 and 135-137: HTTPMethodNotAllowed carrying an
Allow header that joins the allowed methods with a comma. -/
def methodNotAllowedResp (allowed : List String) : Resp :=
  { status_int := 405
    headers := [("Allow", String.intercalate ", " allowed)]
    body := "" }

/-- account.py lines 62-70: the faked HTTPNoContent returned by GETorHEAD when
the account is not found and autocreate is enabled. -/
def fakeAutocreateResp (env : Env) : Resp :=
  { status_int := 204
    headers := [("Content-Length", "0"),
                ("Accept-Ranges", "bytes"),
                ("Content-Type", "text/plain; charset=utf-8"),
                ("X-Timestamp", env.now),
                ("X-Account-Bytes-Used", "0"),
                ("X-Account-Container-Count", "0"),
                ("X-Account-Object-Count", "0")]
    body := "" }

/-- account.py lines 49-71: the GET/HEAD handler.  Checks the name length,
resolves the ring, performs one `GETorHEAD_base` fan-out on the rstripped
path, and replaces a 404 decision by the faked response when autocreate is
enabled. -/
def AccountController.GETorHEAD (c : AccountController) (env : Env) (req : Req) :
    List Ev × Resp :=
  if c.account_name.length > env.max_account_name_length then
    ([], nameTooLongResp c.account_name.length env.max_account_name_length)
  else
    let pn := env.get_nodes c.account_name
    let path := req.path_info.dropRightWhile (fun ch => ch == '/')
    let resp := env.backend 0
    let trace := [Ev.getNodes c.account_name, Ev.getOrHeadBase pn.1 path]
    if resp.status_int = 404 ∧ c.app.account_autocreate = true then
      (trace, fakeAutocreateResp env)
    else
      (trace, resp)

/-- Modelled from the spec: the public GET handler (defined in the proxy
controller base class, which is not under `src/`) delegates account GET
requests to `GETorHEAD`. -/
def AccountController.GET (c : AccountController) (env : Env) (req : Req) :
    List Ev × Resp :=
  c.GETorHEAD env req

/-- Modelled from the spec: the public HEAD handler (defined in the proxy
controller base class, which is not under `src/`) delegates account HEAD
requests to `GETorHEAD`. -/
def AccountController.HEAD (c : AccountController) (env : Env) (req : Req) :
    List Ev × Resp :=
  c.GETorHEAD env req

/-- account.py lines 73-97: the PUT handler.  Rejects with 405 when account
management is disabled, then runs `check_metadata`, then the name-length
check; then resolves the ring, generates transfer headers, deletes the cache
key when memcache is configured, and fans the PUT out to all nodes. -/
def AccountController.PUT (c : AccountController) (env : Env) (req : Req) :
    List Ev × Resp :=
  if c.app.allow_account_management = false then
    ([], methodNotAllowedResp c.allowed_methods)
  else
    match req.check_metadata_account with
    | some error_response => ([], error_response)
    | none =>
      if c.account_name.length > env.max_account_name_length then
        ([], nameTooLongResp c.account_name.length env.max_account_name_length)
      else
        let pn := env.get_nodes c.account_name
        let headers := env.gen_headers true
        let cacheEvs :=
          if c.app.memcache = true then
            [Ev.cacheDelete (env.cache_key c.account_name)]
          else []
        ([Ev.getNodes c.account_name, Ev.genHeaders true] ++ cacheEvs ++
           [Ev.dispatch "PUT" pn.1 req.path_info
             (List.replicate pn.2.length headers)],
         env.backend 0)

/-- account.py lines 99-124: the POST handler.  Runs the name-length check,
then `check_metadata`; then resolves the ring, generates transfer headers,
deletes the cache key when memcache is configured, and fans the POST out.
If the decision is 404 and autocreate is enabled, it calls
`autocreate_account` once and re-issues the identical fan-out once, returning
the second decision as-is. -/
def AccountController.POST (c : AccountController) (env : Env) (req : Req) :
    List Ev × Resp :=
  if c.account_name.length > env.max_account_name_length then
    ([], nameTooLongResp c.account_name.length env.max_account_name_length)
  else
    match req.check_metadata_account with
    | some error_response => ([], error_response)
    | none =>
      let pn := env.get_nodes c.account_name
      let headers := env.gen_headers true
      let cacheEvs :=
        if c.app.memcache = true then
          [Ev.cacheDelete (env.cache_key c.account_name)]
        else []
      let hs := List.replicate pn.2.length headers
      let first := [Ev.getNodes c.account_name, Ev.genHeaders true] ++ cacheEvs ++
        [Ev.dispatch "POST" pn.1 req.path_info hs]
      let resp := env.backend 0
      if resp.status_int = 404 ∧ c.app.account_autocreate = true then
        (first ++ [Ev.autocreateAccount c.account_name,
                   Ev.dispatch "POST" pn.1 req.path_info hs],
         env.backend 1)
      else
        (first, resp)

/-- account.py lines 126-147: the DELETE handler.  Rejects any request with a
non-empty query string with 400, then rejects with 405 when account
management is disabled; then resolves the ring, generates headers (without
the transfer flag), deletes the cache key when memcache is configured, and
fans the DELETE out to all nodes.  It performs no name-length check. -/
def AccountController.DELETE (c : AccountController) (env : Env) (req : Req) :
    List Ev × Resp :=
  if req.query_string ≠ "" then
    ([], badRequestResp)
  else if c.app.allow_account_management = false then
    ([], methodNotAllowedResp c.allowed_methods)
  else
    let pn := env.get_nodes c.account_name
    let headers := env.gen_headers false
    let cacheEvs :=
      if c.app.memcache = true then
        [Ev.cacheDelete (env.cache_key c.account_name)]
      else []
    ([Ev.getNodes c.account_name, Ev.genHeaders false] ++ cacheEvs ++
       [Ev.dispatch "DELETE" pn.1 req.path_info
         (List.replicate pn.2.length headers)],
     env.backend 0)

/-! Section: helper views of the POST trace, used to state the retry
claims. -/

/-- The cache-invalidation events a mutating handler emits: one delete of the
account's cache key when memcache is configured, none otherwise. -/
def cacheTrace (c : AccountController) (env : Env) : List Ev :=
  if c.app.memcache = true then [Ev.cacheDelete (env.cache_key c.account_name)]
  else []

/-- The replica fan-out event of the POST handler: method POST, the partition
returned by the ring, the request path, and one copy of the generated
transfer headers per candidate node. -/
def postDispatchEv (c : AccountController) (env : Env) (req : Req) : Ev :=
  Ev.dispatch "POST" (env.get_nodes c.account_name).1 req.path_info
    (List.replicate (env.get_nodes c.account_name).2.length (env.gen_headers true))

/-- The trace of the POST handler up to and including its first fan-out. -/
def postFirstTrace (c : AccountController) (env : Env) (req : Req) : List Ev :=
  [Ev.getNodes c.account_name, Ev.genHeaders true] ++ cacheTrace c env ++
    [postDispatchEv c env req]

/-- True exactly on ring-resolution events. -/
def Ev.isGetNodes : Ev → Bool
  | .getNodes _ => true
  | _ => false

/-- True exactly on header-generation events. -/
def Ev.isGenHeaders : Ev → Bool
  | .genHeaders _ => true
  | _ => false

/-! Section: concrete fixtures used by witnesses and counterexamples. -/

/-- The allowed-method set inherited from the base Controller, for fixtures. -/
def baseAllowed : List String := ["GET", "HEAD", "POST", "PUT", "DELETE"]

/-- A concrete environment: maximum name length 3, a ring mapping every name
to partition 7 with three nodes, and a backend whose first fan-out answers
404 and whose later fan-outs answer 204. -/
def envFix : Env :=
  { max_account_name_length := 3
    get_nodes := fun _ => (7, [0, 1, 2])
    gen_headers := fun t =>
      if t then [("X-Timestamp", "0000000001.00000")]
      else [("X-Trans-Id", "tx1")]
    cache_key := fun n => "account/" ++ n
    backend := fun i =>
      if i = 0 then { status_int := 404, headers := [], body := "" }
      else { status_int := 204, headers := [], body := "" }
    now := "0000000002.00000" }

/-- App with account management, autocreate and memcache all enabled. -/
def appFull : App :=
  { allow_account_management := true
    account_autocreate := true
    memcache := true }

/-- App with account management disabled. -/
def appNoMgmt : App :=
  { allow_account_management := false
    account_autocreate := false
    memcache := true }

/-- Controller for a short (valid-length) account name. -/
def cShort : AccountController :=
  AccountController.init appFull "ab" baseAllowed

/-- Controller for an over-long account name (length 5 > maximum 3). -/
def cLong : AccountController :=
  AccountController.init appFull "aaaaa" baseAllowed

/-- A plain request: no query string, conformant metadata. -/
def reqPlain : Req :=
  { path_info := "/v1/ab", query_string := "", check_metadata_account := none }

/-- A request for the over-long account. -/
def reqLong : Req :=
  { path_info := "/v1/aaaaa", query_string := "", check_metadata_account := none }

/-- A request carrying a non-empty query string. -/
def reqQS : Req :=
  { path_info := "/v1/ab", query_string := "marker=x",
    check_metadata_account := none }

/-- The error response `check_metadata` returns for malformed metadata. -/
def metaErrResp : Resp :=
  { status_int := 400, headers := [], body := "Metadata name too long" }

/-- A request whose account metadata is malformed. -/
def reqBadMeta : Req :=
  { path_info := "/v1/aaaaa", query_string := "",
    check_metadata_account := some metaErrResp }

/-! Section: theorems. -/

/-- The exclusion predicate actually compiled by the gatekeeper: a header name
matches iff one of the three system-metadata prefixes is a case-insensitive
prefix of it (the `re.match` anchor makes the whole pattern match at the
start of the name). -/
theorem exclusion_test_iff (name : String) :
    make_exclusion_test inbound_exclusions name = true ↔
      (strPrefix "x-account-sysmeta-" (lowercase name) = true ∨
       strPrefix "x-container-sysmeta-" (lowercase name) = true ∨
       strPrefix "x-object-sysmeta-" (lowercase name) = true) := by
  have h1 : lowercase ("x-" ++ "account" ++ "-sysmeta-") = "x-account-sysmeta-" := by
    decide
  have h2 : lowercase ("x-" ++ "container" ++ "-sysmeta-") = "x-container-sysmeta-" := by
    decide
  have h3 : lowercase ("x-" ++ "object" ++ "-sysmeta-") = "x-object-sysmeta-" := by
    decide
  simp only [make_exclusion_test, inbound_exclusions, get_sys_meta_prefix,
    List.any_cons, List.any_nil, Bool.or_false, Bool.or_eq_true, h1, h2, h3]

/-- Claim C2: the inbound filter removes from the request exactly those
headers whose names match one of the three fixed case-insensitive
system-metadata patterns (account, container, object), each pattern matched
in full at the start of the name; every header whose name matches no pattern
is kept, and the filter is a total function (it never raises). -/
theorem inbound_filter_removes_exactly_sysmeta :
    (∀ name : String,
      make_exclusion_test inbound_exclusions name = true ↔
        (strPrefix "x-account-sysmeta-" (lowercase name) = true ∨
         strPrefix "x-container-sysmeta-" (lowercase name) = true ∨
         strPrefix "x-object-sysmeta-" (lowercase name) = true)) ∧
    (∀ hs : List (String × String), ∀ kv : String × String,
      kv ∈ (gatekeeper_inbound hs).2 ↔
        kv ∈ hs ∧ make_exclusion_test inbound_exclusions kv.1 = true) ∧
    (∀ hs : List (String × String), ∀ kv : String × String,
      kv ∈ (gatekeeper_inbound hs).1 ↔
        kv ∈ hs ∧ make_exclusion_test inbound_exclusions kv.1 = false) := by
  refine ⟨exclusion_test_iff, ?_, ?_⟩
  · intro hs kv
    simp [gatekeeper_inbound, remove_items, List.mem_filter]
  · intro hs kv
    simp [gatekeeper_inbound, remove_items, List.mem_filter]

/-- Claim C3: the inbound and outbound filters apply the identical exclusion
predicate — a name is removed inbound iff it would be removed outbound — and
in both directions the removed headers' names are disjoint from the names of
the headers that remain (are delivered). -/
theorem gatekeeper_inbound_outbound_symmetry :
    (∀ name : String,
      make_exclusion_test inbound_exclusions name =
        make_exclusion_test outbound_exclusions name) ∧
    (∀ hs : List (String × String), ∀ kv : String × String,
      kv ∈ (gatekeeper_inbound hs).2 ↔ kv ∈ (gatekeeper_outbound hs).2) ∧
    (∀ hs : List (String × String), ∀ kv kv' : String × String,
      kv ∈ (gatekeeper_inbound hs).2 → kv' ∈ (gatekeeper_inbound hs).1 →
        kv.1 ≠ kv'.1) ∧
    (∀ hs : List (String × String), ∀ kv kv' : String × String,
      kv ∈ (gatekeeper_outbound hs).2 → kv' ∈ (gatekeeper_outbound hs).1 →
        kv.1 ≠ kv'.1) := by
  refine ⟨fun name => rfl, fun hs kv => Iff.rfl, ?_, ?_⟩
  · intro hs kv kv' hrem hkeep heq
    rw [gatekeeper_inbound, remove_items, List.mem_filter] at hrem hkeep
    rw [heq] at hrem
    simp only [Bool.not_eq_true'] at hkeep
    rw [hkeep.2] at hrem
    exact Bool.false_ne_true hrem.2
  · intro hs kv kv' hrem hkeep heq
    rw [gatekeeper_outbound, remove_items, List.mem_filter] at hrem hkeep
    rw [heq] at hrem
    simp only [Bool.not_eq_true'] at hkeep
    rw [hkeep.2] at hrem
    exact Bool.false_ne_true hrem.2

/-- Claim C4: for GET/HEAD on an account whose name passes the length check,
if the single replica fan-out decides 404 and autocreate is enabled, the
handler returns the synthesized 204 response with the fixed zero-usage
placeholder headers and the freshly generated timestamp, and the trace shows
exactly one ring resolution and one read fan-out — no second replica contact
and no mutating event; otherwise the fan-out decision is returned unchanged
over the same trace. -/
theorem getorhead_autocreate_synthesis (c : AccountController) (env : Env)
    (req : Req) (hlen : c.account_name.length ≤ env.max_account_name_length) :
    ((env.backend 0).status_int = 404 ∧ c.app.account_autocreate = true →
      c.GETorHEAD env req =
        ([Ev.getNodes c.account_name,
          Ev.getOrHeadBase (env.get_nodes c.account_name).1
            (req.path_info.dropRightWhile (fun ch => ch == '/'))],
         fakeAutocreateResp env)) ∧
    (¬ ((env.backend 0).status_int = 404 ∧ c.app.account_autocreate = true) →
      c.GETorHEAD env req =
        ([Ev.getNodes c.account_name,
          Ev.getOrHeadBase (env.get_nodes c.account_name).1
            (req.path_info.dropRightWhile (fun ch => ch == '/'))],
         env.backend 0)) := by
  have hnot : ¬ c.account_name.length > env.max_account_name_length := by omega
  constructor
  · intro h
    simp [AccountController.GETorHEAD, hnot, h]
  · intro h
    simp [AccountController.GETorHEAD, hnot, h]

/-- Witness for C4: a concrete controller, environment and request satisfying
the hypotheses, on which the synthesized-response branch fires. -/
theorem getorhead_autocreate_synthesis_witness :
    cShort.account_name.length ≤ envFix.max_account_name_length ∧
    (envFix.backend 0).status_int = 404 ∧
    cShort.app.account_autocreate = true ∧
    cShort.GETorHEAD envFix reqPlain =
      ([Ev.getNodes cShort.account_name,
        Ev.getOrHeadBase (envFix.get_nodes cShort.account_name).1
          (reqPlain.path_info.dropRightWhile (fun ch => ch == '/'))],
       fakeAutocreateResp envFix) := by
  refine ⟨by decide, by decide, by decide, ?_⟩
  exact (getorhead_autocreate_synthesis cShort envFix reqPlain (by decide)).1
    ⟨by decide, by decide⟩

/-- Claim C5: for POST passing the length and metadata checks, if the first
fan-out decides 404 and autocreate is enabled, the handler performs exactly
one implicit account create followed by exactly one re-issued fan-out and
returns the second decision as-is (even if it is again 404, since the result
is the backend's second answer whatever it is); otherwise no create and no
retry occur and the first decision is returned. -/
theorem post_autocreate_retry (c : AccountController) (env : Env) (req : Req)
    (hlen : c.account_name.length ≤ env.max_account_name_length)
    (hmeta : req.check_metadata_account = none) :
    ((env.backend 0).status_int = 404 ∧ c.app.account_autocreate = true →
      c.POST env req =
        (postFirstTrace c env req ++
           [Ev.autocreateAccount c.account_name, postDispatchEv c env req],
         env.backend 1)) ∧
    (¬ ((env.backend 0).status_int = 404 ∧ c.app.account_autocreate = true) →
      c.POST env req = (postFirstTrace c env req, env.backend 0)) := by
  have hnot : ¬ c.account_name.length > env.max_account_name_length := by omega
  constructor
  · intro h
    simp [AccountController.POST, postFirstTrace, postDispatchEv, cacheTrace,
      hnot, hmeta, h]
  · intro h
    simp [AccountController.POST, postFirstTrace, postDispatchEv, cacheTrace,
      hnot, hmeta, h]

/-- Witness for C5: a concrete instance on which the retry branch fires (the
backend answers 404 first, 204 second). -/
theorem post_autocreate_retry_witness :
    cShort.account_name.length ≤ envFix.max_account_name_length ∧
    reqPlain.check_metadata_account = none ∧
    (envFix.backend 0).status_int = 404 ∧
    cShort.app.account_autocreate = true ∧
    cShort.POST envFix reqPlain =
      (postFirstTrace cShort envFix reqPlain ++
         [Ev.autocreateAccount cShort.account_name,
          postDispatchEv cShort envFix reqPlain],
       envFix.backend 1) := by
  refine ⟨by decide, rfl, by decide, by decide, ?_⟩
  exact (post_autocreate_retry cShort envFix reqPlain (by decide) rfl).1
    ⟨by decide, by decide⟩

/-- Claim C7: DELETE rejects every request with a non-empty query string as
400 bad-request, with an empty trace (no ring resolution, no cache delete, no
dispatch), for every configuration — in particular regardless of the
account-management flag (the guard runs before the policy check) and
regardless of any backend state. -/
theorem delete_query_string_guard (c : AccountController) (env : Env)
    (req : Req) (hq : req.query_string ≠ "") :
    c.DELETE env req = ([], badRequestResp) := by
  simp [AccountController.DELETE, hq]

/-- Witness for C7: the concrete request with query string marker=x is
rejected, on a controller whose account management is enabled. -/
theorem delete_query_string_guard_witness :
    reqQS.query_string ≠ "" ∧
    cShort.app.allow_account_management = true ∧
    cShort.DELETE envFix reqQS = ([], badRequestResp) := by
  refine ⟨by decide, by decide, ?_⟩
  exact delete_query_string_guard cShort envFix reqQS (by decide)

/-- Claim C9: PUT and POST run their input checks in opposite orders.  On a
request whose metadata is malformed and whose account name is over-long, PUT
(with account management enabled) returns the metadata validation error,
while POST returns the name-length bad-request error. -/
theorem put_post_check_order (c : AccountController) (env : Env) (req : Req)
    (err : Resp)
    (hmgmt : c.app.allow_account_management = true)
    (hmeta : req.check_metadata_account = some err)
    (hlen : c.account_name.length > env.max_account_name_length) :
    c.PUT env req = ([], err) ∧
    c.POST env req =
      ([], nameTooLongResp c.account_name.length env.max_account_name_length) := by
  constructor
  · simp [AccountController.PUT, hmgmt, hmeta]
  · simp [AccountController.POST, hmeta, hlen]

/-- Witness for C9: the over-long account with malformed metadata. -/
theorem put_post_check_order_witness :
    cLong.app.allow_account_management = true ∧
    reqBadMeta.check_metadata_account = some metaErrResp ∧
    cLong.account_name.length > envFix.max_account_name_length ∧
    cLong.PUT envFix reqBadMeta = ([], metaErrResp) ∧
    cLong.POST envFix reqBadMeta =
      ([], nameTooLongResp cLong.account_name.length
             envFix.max_account_name_length) := by
  refine ⟨by decide, rfl, by decide, ?_⟩
  exact put_post_check_order cLong envFix reqBadMeta metaErrResp (by decide)
    rfl (by decide)

/-- Claim C6: for every mutating operation that reaches dispatch (PUT with
management enabled and valid input, POST with valid input, DELETE with an
empty query string and management enabled) and with memcache configured, the
cache-delete of the account's cache key appears in the trace strictly before
the replica dispatch.  The statement holds for every environment — in
particular for every backend oracle — so the invalidation is not conditioned
on the dispatch's outcome. -/
theorem cache_invalidation_before_dispatch (c : AccountController) (env : Env)
    (req : Req)
    (hmem : c.app.memcache = true)
    (hmgmt : c.app.allow_account_management = true)
    (hmeta : req.check_metadata_account = none)
    (hlen : c.account_name.length ≤ env.max_account_name_length)
    (hq : req.query_string = "") :
    (c.PUT env req).1 =
      [Ev.getNodes c.account_name, Ev.genHeaders true,
       Ev.cacheDelete (env.cache_key c.account_name),
       Ev.dispatch "PUT" (env.get_nodes c.account_name).1 req.path_info
         (List.replicate (env.get_nodes c.account_name).2.length
           (env.gen_headers true))] ∧
    (c.POST env req).1.take 4 =
      [Ev.getNodes c.account_name, Ev.genHeaders true,
       Ev.cacheDelete (env.cache_key c.account_name),
       postDispatchEv c env req] ∧
    (c.DELETE env req).1 =
      [Ev.getNodes c.account_name, Ev.genHeaders false,
       Ev.cacheDelete (env.cache_key c.account_name),
       Ev.dispatch "DELETE" (env.get_nodes c.account_name).1 req.path_info
         (List.replicate (env.get_nodes c.account_name).2.length
           (env.gen_headers false))] := by
  have hnot : ¬ c.account_name.length > env.max_account_name_length := by omega
  refine ⟨?_, ?_, ?_⟩
  · simp [AccountController.PUT, hmgmt, hmeta, hnot, hmem]
  · by_cases h : (env.backend 0).status_int = 404 ∧ c.app.account_autocreate = true
    · simp [AccountController.POST, postDispatchEv, hmeta, hnot, hmem, h]
    · simp [AccountController.POST, postDispatchEv, hmeta, hnot, hmem, h]
  · simp [AccountController.DELETE, hq, hmgmt, hmem]

/-- Witness for C6: the concrete full-featured controller and plain request. -/
theorem cache_invalidation_before_dispatch_witness :
    cShort.app.memcache = true ∧
    cShort.app.allow_account_management = true ∧
    reqPlain.check_metadata_account = none ∧
    cShort.account_name.length ≤ envFix.max_account_name_length ∧
    reqPlain.query_string = "" ∧
    (cShort.PUT envFix reqPlain).1 =
      [Ev.getNodes cShort.account_name, Ev.genHeaders true,
       Ev.cacheDelete (envFix.cache_key cShort.account_name),
       Ev.dispatch "PUT" (envFix.get_nodes cShort.account_name).1
         reqPlain.path_info
         (List.replicate (envFix.get_nodes cShort.account_name).2.length
           (envFix.gen_headers true))] := by
  refine ⟨by decide, by decide, rfl, by decide, rfl, ?_⟩
  exact (cache_invalidation_before_dispatch cShort envFix reqPlain (by decide)
    (by decide) rfl (by decide) rfl).1

/-- Claim C8: with account management disabled, PUT (on any request) and
DELETE (on a request with an empty query string) are rejected with 405 and an
empty trace — no validation result is consulted and no collaborator is
called — and the Allow header joins the controller's allowed-method list, a
list from which PUT and DELETE are absent (the base list, being a Python
set, has no duplicates). -/
theorem disabled_management_rejection (app : App) (name : String)
    (base : List String) (env : Env) (req : Req)
    (hmgmt : app.allow_account_management = false)
    (hnd : base.Nodup)
    (hq : req.query_string = "") :
    (AccountController.init app name base).PUT env req =
      ([], methodNotAllowedResp
        (AccountController.init app name base).allowed_methods) ∧
    (AccountController.init app name base).DELETE env req =
      ([], methodNotAllowedResp
        (AccountController.init app name base).allowed_methods) ∧
    "PUT" ∉ (AccountController.init app name base).allowed_methods ∧
    "DELETE" ∉ (AccountController.init app name base).allowed_methods := by
  have hallowed : (AccountController.init app name base).allowed_methods =
      (base.erase "PUT").erase "DELETE" := by
    simp [AccountController.init, hmgmt]
  have hnd1 : (base.erase "PUT").Nodup := hnd.erase "PUT"
  refine ⟨?_, ?_, ?_, ?_⟩
  · simp [AccountController.PUT, AccountController.init, hmgmt]
  · simp [AccountController.DELETE, AccountController.init, hmgmt, hq]
  · rw [hallowed]
    intro hmem
    rcases (List.Nodup.mem_erase_iff hnd1).1 hmem with ⟨hne, hmem1⟩
    exact (List.Nodup.not_mem_erase hnd) hmem1
  · rw [hallowed]
    exact List.Nodup.not_mem_erase hnd1

/-- Witness for C8: the concrete management-disabled controller over the base
method list GET, HEAD, POST, PUT, DELETE. -/
theorem disabled_management_rejection_witness :
    appNoMgmt.allow_account_management = false ∧
    baseAllowed.Nodup ∧
    reqPlain.query_string = "" ∧
    (AccountController.init appNoMgmt "ab" baseAllowed).PUT envFix reqPlain =
      ([], methodNotAllowedResp
        (AccountController.init appNoMgmt "ab" baseAllowed).allowed_methods) ∧
    "PUT" ∉ (AccountController.init appNoMgmt "ab" baseAllowed).allowed_methods ∧
    "DELETE" ∉
      (AccountController.init appNoMgmt "ab" baseAllowed).allowed_methods := by
  have h := disabled_management_rejection appNoMgmt "ab" baseAllowed envFix
    reqPlain (by decide) (by decide) rfl
  exact ⟨by decide, by decide, rfl, h.1, h.2.2.1, h.2.2.2⟩

/-- Claim C10: on the POST autocreate retry, the second fan-out event is
identical to the first — same method POST, same partition, same path, and the
same per-node header list generated once for the first attempt — and the
whole handler performs exactly one ring resolution and exactly one header
generation, so nothing is recomputed between the attempts. -/
theorem post_retry_reuses_first_dispatch (c : AccountController) (env : Env)
    (req : Req)
    (hlen : c.account_name.length ≤ env.max_account_name_length)
    (hmeta : req.check_metadata_account = none)
    (hret : (env.backend 0).status_int = 404)
    (hauto : c.app.account_autocreate = true) :
    (c.POST env req).1 =
      [Ev.getNodes c.account_name, Ev.genHeaders true] ++ cacheTrace c env ++
        [postDispatchEv c env req, Ev.autocreateAccount c.account_name,
         postDispatchEv c env req] ∧
    ((c.POST env req).1.filter Ev.isGetNodes).length = 1 ∧
    ((c.POST env req).1.filter Ev.isGenHeaders).length = 1 := by
  have hnot : ¬ c.account_name.length > env.max_account_name_length := by omega
  have htrace : (c.POST env req).1 =
      [Ev.getNodes c.account_name, Ev.genHeaders true] ++ cacheTrace c env ++
        [postDispatchEv c env req, Ev.autocreateAccount c.account_name,
         postDispatchEv c env req] := by
    simp [AccountController.POST, postDispatchEv, cacheTrace, hmeta, hnot,
      hret, hauto]
  refine ⟨htrace, ?_, ?_⟩
  · rw [htrace]
    by_cases hmem : c.app.memcache = true
    · simp [cacheTrace, hmem, Ev.isGetNodes, Ev.isGenHeaders, postDispatchEv]
    · simp [cacheTrace, hmem, Ev.isGetNodes, Ev.isGenHeaders, postDispatchEv]
  · rw [htrace]
    by_cases hmem : c.app.memcache = true
    · simp [cacheTrace, hmem, Ev.isGetNodes, Ev.isGenHeaders, postDispatchEv]
    · simp [cacheTrace, hmem, Ev.isGetNodes, Ev.isGenHeaders, postDispatchEv]

/-- Witness for C10: the concrete retry run. -/
theorem post_retry_reuses_first_dispatch_witness :
    cShort.account_name.length ≤ envFix.max_account_name_length ∧
    reqPlain.check_metadata_account = none ∧
    (envFix.backend 0).status_int = 404 ∧
    cShort.app.account_autocreate = true ∧
    (cShort.POST envFix reqPlain).1 =
      [Ev.getNodes cShort.account_name, Ev.genHeaders true] ++
        cacheTrace cShort envFix ++
        [postDispatchEv cShort envFix reqPlain,
         Ev.autocreateAccount cShort.account_name,
         postDispatchEv cShort envFix reqPlain] := by
  refine ⟨by decide, rfl, by decide, by decide, ?_⟩
  exact (post_retry_reuses_first_dispatch cShort envFix reqPlain (by decide)
    rfl (by decide) (by decide)).1

/-- Counterexample to Claim C1 as stated: DELETE performs no account-name
length check.  On a concrete controller whose decoded account name (length 5)
exceeds the configured maximum (3), with account management enabled and an
empty query string, DELETE resolves the ring and dispatches to the replicas,
and returns the backend's decision (404 here) rather than a bad-request. -/
theorem delete_skips_length_check_cex :
    cLong.account_name.length > envFix.max_account_name_length ∧
    cLong.DELETE envFix reqLong =
      ([Ev.getNodes "aaaaa", Ev.genHeaders false,
        Ev.cacheDelete "account/aaaaa",
        Ev.dispatch "DELETE" 7 "/v1/aaaaa"
          (List.replicate 3 [("X-Trans-Id", "tx1")])],
       { status_int := 404, headers := [], body := "" }) := by
  exact ⟨by decide, by decide⟩

/-- Claim C1 (amended): for GET, HEAD and POST, and for PUT when account
management is enabled and the metadata check passes, an account name longer
than the configured maximum is rejected with the bad-request length response
over an empty trace — the ring is never resolved and no replica dispatch
occurs.  DELETE performs no such check (see the counterexample); PUT with
management disabled rejects with method-not-allowed instead, likewise with an
empty trace. -/
theorem name_length_guard_amended (c : AccountController) (env : Env)
    (req : Req)
    (hlen : c.account_name.length > env.max_account_name_length) :
    c.GET env req =
      ([], nameTooLongResp c.account_name.length env.max_account_name_length) ∧
    c.HEAD env req =
      ([], nameTooLongResp c.account_name.length env.max_account_name_length) ∧
    c.POST env req =
      ([], nameTooLongResp c.account_name.length env.max_account_name_length) ∧
    (c.app.allow_account_management = true →
      req.check_metadata_account = none →
      c.PUT env req =
        ([], nameTooLongResp c.account_name.length
          env.max_account_name_length)) ∧
    (c.app.allow_account_management = false →
      c.PUT env req = ([], methodNotAllowedResp c.allowed_methods)) := by
  refine ⟨?_, ?_, ?_, ?_, ?_⟩
  · simp [AccountController.GET, AccountController.GETorHEAD, hlen]
  · simp [AccountController.HEAD, AccountController.GETorHEAD, hlen]
  · simp [AccountController.POST, hlen]
  · intro hmgmt hmeta
    simp [AccountController.PUT, hmgmt, hmeta, hlen]
  · intro hmgmt
    simp [AccountController.PUT, hmgmt]

/-- Witness for the amended C1: the concrete over-long account name. -/
theorem name_length_guard_amended_witness :
    cLong.account_name.length > envFix.max_account_name_length ∧
    cLong.GET envFix reqLong =
      ([], nameTooLongResp cLong.account_name.length
        envFix.max_account_name_length) ∧
    cLong.POST envFix reqLong =
      ([], nameTooLongResp cLong.account_name.length
        envFix.max_account_name_length) ∧
    cLong.PUT envFix reqLong =
      ([], nameTooLongResp cLong.account_name.length
        envFix.max_account_name_length) := by
  have h := name_length_guard_amended cLong envFix reqLong (by decide)
  exact ⟨by decide, h.1, h.2.2.1, h.2.2.2.1 (by decide) rfl⟩

end SwiftProxy
